import Mathlib

/-!
# Shallow embedding of the IntelliTravel resolution-and-fallback pipeline

This file embeds the decision logic of `MapApiManager` (file `src/map/mapApiManager.ts`,
given as `src/unnamed/part_000`) and of the older `MapApiManager` variant embedded in
`src/storage/database.ts`, and proves the frozen claims about them.

Modelling conventions:
* JavaScript numbers that carry coordinates, payload fields and random draws are
  modelled as `ℚ` (all the arithmetic on them in the source is exact on the inputs the
  claims use); the transcendental haversine computation is modelled over `ℝ`.
* `Math.random()` draws are passed in as explicit `ℚ` parameters (the source draws one
  number per use site); the JS guarantee is `0 ≤ r < 1`.
* Timestamps (`Date.now()`) are `ℤ` milliseconds.
* The in-memory `Map` cache is an association list read through `List.find?`;
  `Map.set` is modelled by prepending after deleting the key.
* Network effects are modelled by passing the provider outcome as a parameter:
  `ProviderOutcome.failure` covers timeout, transport error, and a malformed
  (non-array) JSON payload — in the source all three throw inside the `try` block
  (`fetch` rejects, `response.json()` rejects, or `data.map` is not a function)
  and land in the same `catch`.
* Payload `lat`/`lon` strings are modelled as already-parsed `ℚ` values
  (`parseFloat` is identity on well-formed numeric payloads).
-/

namespace IntelliTravel

/-! ## JavaScript string primitives -/

/-- `needle` is a prefix of `hay` (on character lists). -/
def listPre : List Char → List Char → Bool
  | [], _ => true
  | _ :: _, [] => false
  | a :: as, b :: bs => a == b && listPre as bs

/-- `needle` occurs as a contiguous substring of `hay`; models JS
`String.prototype.includes` (the empty needle is always found). -/
def listSub : List Char → List Char → Bool
  | n, [] => n.isEmpty
  | n, c :: t => listPre n (c :: t) || listSub n t

/-- JS `hay.includes(needle)`. -/
def strIncludes (hay needle : String) : Bool :=
  listSub needle.data hay.data

/-- JS `s.toLowerCase()` (ASCII case mapping, as exercised by the source data). -/
def jsToLower (s : String) : String :=
  String.mk (s.data.map Char.toLower)

/-- JS `s.trim()`: strip whitespace from both ends. -/
def jsTrim (s : String) : String :=
  String.mk (((s.data.dropWhile Char.isWhitespace).reverse.dropWhile
    Char.isWhitespace).reverse)

/-- JS string truthiness on an optional string field: `undefined` and `""` are falsy. -/
def truthyStr : Option String → Bool
  | none => false
  | some s => !(s == "")

/-- JS `a || b` on an optional string with default `b` (empty string is falsy). -/
def jsOrD (a : Option String) (b : String) : String :=
  match a with
  | none => b
  | some s => if s == "" then b else s

/-! ## Domain data -/

/-- The `Place` interface of `mapApiManager.ts` (lines 5–14). Optional TS fields are
`Option`s; an absent JS property is `none`. -/
structure Place where
  name : String
  lat : ℚ
  lng : ℚ
  type : String
  address : Option String := none
  rating : Option ℚ := none
  description : Option String := none
  category : Option String := none
deriving DecidableEq, Repr

/-- Address sub-object of a geocoder payload item. -/
structure RawAddress where
  city : Option String := none
  state : Option String := none
deriving DecidableEq, Repr

/-- One item of the geocoder JSON payload, with `lat`/`lon` already parsed. -/
structure RawItem where
  display_name : String
  lat : ℚ
  lon : ℚ
  type : Option String := none
  cls : Option String := none
  address : Option RawAddress := none
deriving DecidableEq, Repr

/-- The intermediate candidate produced by the `data.map` step of `searchLocation`
(lines 57–65): a place plus the transient `isIndian` tag. -/
structure TaggedPlace where
  name : String
  lat : ℚ
  lng : ℚ
  type : String
  category : Option String
  description : String
  isIndian : Bool
deriving DecidableEq, Repr

/-- Dropping the transient `isIndian` tag (the `{ isIndian, ...rest }` destructuring
at lines 75–78); the mapped candidates never carry `address`/`rating`. -/
def stripTag (t : TaggedPlace) : Place :=
  { name := t.name, lat := t.lat, lng := t.lng, type := t.type,
    description := some t.description, category := t.category }

/-! ## MapApiManager helpers (part_000) -/

/-- `indiaBounds` (lines 19–21). -/
def indiaBounds : ℚ × ℚ × ℚ × ℚ := (mkRat 376 10, 6, mkRat 974 10, mkRat 681 10)

/-- `isLocationInIndia` (lines 150–153). -/
def isLocationInIndia (lat lng : ℚ) : Bool :=
  decide (6 ≤ lat) && decide (lat ≤ mkRat 376 10) && decide (mkRat 681 10 ≤ lng) && decide (lng ≤ mkRat 974 10)

/-- The fixed city list of `addIndiaBias` (lines 137–139). -/
def indianCities : List String :=
  ["delhi", "mumbai", "chennai", "kolkata", "bangalore", "hyderabad",
   "pune", "ahmedabad", "jaipur", "lucknow", "bengaluru", "gurgaon",
   "noida", "kochi", "goa", "chandigarh", "indore", "bhopal"]

/-- `addIndiaBias` (lines 136–148). -/
def addIndiaBias (query : String) : String :=
  let lowerQuery := jsToLower query
  let isIndianCity := indianCities.any fun city => strIncludes lowerQuery city
  if !isIndianCity && !(strIncludes lowerQuery "india") && decide (2 < query.length) then
    query ++ ", India"
  else
    query

/-- Modelled from the spec (§4.1): `buildBiasedQuery` as the spec words it — if the
lower-cased query contains a known city name, or contains the country name, or has
length ≤ 2, return the query unchanged; otherwise append `", India"`. Stated
separately from `addIndiaBias` so the two can be compared. -/
def buildBiasedQuerySpec (query : String) : String :=
  if (indianCities.any fun city => strIncludes (jsToLower query) city)
      || strIncludes (jsToLower query) "india"
      || decide (query.length ≤ 2) then
    query
  else
    query ++ ", India"

/-- `capitalize` (lines 350–352); `"".charAt(0)` is `""`, so the empty string maps
to itself. -/
def capitalize (s : String) : String :=
  match s.data with
  | [] => ""
  | c :: cs => String.mk (c.toUpper :: cs)

/-- `cleanName` (lines 155–165). -/
def cleanName (displayName : String) : String :=
  let parts := displayName.splitOn ","
  if 3 < parts.length then
    jsTrim (parts.getD 0 "") ++ ", " ++ jsTrim (parts.getD (parts.length - 2) "")
  else
    displayName

/-- `generateDescription` (lines 167–186). When the address object exists but has
neither a truthy `city ∧ state` nor a truthy `state`, control falls through to the
`display_name` logic, as in the source. -/
def generateDescription (item : RawItem) : String :=
  let t := jsOrD item.type (jsOrD item.cls "location")
  let fromParts :=
    let parts := item.display_name.splitOn ","
    if 2 ≤ parts.length then
      capitalize t ++ " • " ++ jsTrim (parts.getD (parts.length - 2) "")
    else
      capitalize t ++ " • Area"
  match item.address with
  | some addr =>
      if truthyStr addr.city && truthyStr addr.state then
        capitalize t ++ " • " ++ addr.city.getD "" ++ ", " ++ addr.state.getD ""
      else if truthyStr addr.state then
        capitalize t ++ " • " ++ addr.state.getD ""
      else
        fromParts
  | none => fromParts

/-- The `data.map` step of `searchLocation` (lines 57–65): payload item to tagged
candidate. -/
def mapItem (item : RawItem) : TaggedPlace :=
  { name := cleanName item.display_name,
    lat := item.lat,
    lng := item.lon,
    type := jsOrD item.type (jsOrD item.cls "place"),
    category := item.cls,
    description := generateDescription item,
    isIndian := isLocationInIndia item.lat item.lon }

/-! ## Ranking (lines 68–78) -/

/-- The comparator passed to `results.sort` (lines 68–72). -/
def searchComparator (a b : TaggedPlace) : ℤ :=
  if a.isIndian && !b.isIndian then -1
  else if !a.isIndian && b.isIndian then 1
  else 0

/-- The non-strict "may come first" preorder induced by the comparator:
`a` may be placed before `b` iff `searchComparator a b ≤ 0`. -/
def sortRel (a b : TaggedPlace) : Prop :=
  searchComparator a b ≤ 0

instance : DecidableRel sortRel := fun x y =>
  inferInstanceAs (Decidable (searchComparator x y ≤ 0))

/-- The ranking step of `searchLocation` (lines 68–78): the stable sort by the
comparator (`Array.prototype.sort` is stable per ES2019; `List.insertionSort` is the
stable sort for `sortRel`), then `slice(0, 8)`, then strip the transient tag. -/
def rankResults (results : List TaggedPlace) : List Place :=
  ((List.insertionSort sortRel results).take 8).map stripTag

/-! ## Offline fallback search (lines 261–297) -/

/-- The static `majorIndianCities` list of `getIndiaFallbackLocations`
(lines 262–275). -/
def majorIndianCities : List Place :=
  [{ name := "Delhi, India", lat := mkRat 286139 10000, lng := mkRat 772090 10000, type := "city",
     description := some "Capital of India" },
   { name := "Mumbai, India", lat := mkRat 190760 10000, lng := mkRat 728777 10000, type := "city",
     description := some "Financial capital of India" },
   { name := "Bengaluru, India", lat := mkRat 129716 10000, lng := mkRat 775946 10000, type := "city",
     description := some "Silicon Valley of India" },
   { name := "Chennai, India", lat := mkRat 130827 10000, lng := mkRat 802707 10000, type := "city",
     description := some "Capital of Tamil Nadu" },
   { name := "Kolkata, India", lat := mkRat 225726 10000, lng := mkRat 883639 10000, type := "city",
     description := some "Cultural capital of India" },
   { name := "Hyderabad, India", lat := mkRat 173850 10000, lng := mkRat 784867 10000, type := "city",
     description := some "City of Pearls" },
   { name := "Pune, India", lat := mkRat 185204 10000, lng := mkRat 738567 10000, type := "city",
     description := some "Oxford of the East" },
   { name := "Ahmedabad, India", lat := mkRat 230225 10000, lng := mkRat 725714 10000, type := "city",
     description := some "Manchester of India" },
   { name := "Jaipur, India", lat := mkRat 269124 10000, lng := mkRat 757873 10000, type := "city",
     description := some "Pink City of India" },
   { name := "Lucknow, India", lat := mkRat 268467 10000, lng := mkRat 809462 10000, type := "city",
     description := some "City of Nawabs" },
   { name := "Kochi, India", lat := mkRat 99312 10000, lng := mkRat 762673 10000, type := "city",
     description := some "Queen of Arabian Sea" },
   { name := "Goa, India", lat := mkRat 152993 10000, lng := mkRat 741240 10000, type := "city",
     description := some "Beach paradise" }]

/-- `getIndiaFallbackLocations` (lines 261–297). The JS `!searchTerm` test is the
empty-string test; `!exactMatches.includes(location)` is modelled with
`List.contains` on the structurally equal records. -/
def getIndiaFallbackLocations (query : String) : List Place :=
  let searchTerm := jsTrim (jsToLower query)
  if searchTerm == "" then
    majorIndianCities.take 8
  else
    let exactMatches := majorIndianCities.filter fun location =>
      strIncludes (jsToLower location.name) searchTerm
    let partialMatches := majorIndianCities.filter fun location =>
      strIncludes (jsToLower (location.description.getD "")) searchTerm
        && !(exactMatches.contains location)
    let allMatches := exactMatches ++ partialMatches
    if 0 < allMatches.length then allMatches.take 8 else majorIndianCities.take 4

/-- Modelled from the spec (§4.5): `fallbackSearch` as the spec words it — `exact` is
the cities whose name contains the query, `partial` the remaining cities whose
description contains it and that are **not** name matches; empty query returns the
first 8 cities; an empty combined set returns the first 4. Stated separately from
`getIndiaFallbackLocations` so the two can be compared. -/
def fallbackSearchSpec (query : String) : List Place :=
  let searchTerm := jsTrim (jsToLower query)
  if searchTerm == "" then
    majorIndianCities.take 8
  else
    let ex := majorIndianCities.filter fun location =>
      strIncludes (jsToLower location.name) searchTerm
    let pa := majorIndianCities.filter fun location =>
      strIncludes (jsToLower (location.description.getD "")) searchTerm
        && !(strIncludes (jsToLower location.name) searchTerm)
    if ex ++ pa = [] then majorIndianCities.take 4 else (ex ++ pa).take 8

/-! ## Cache and searchLocation (lines 34–88) -/

/-- One value of the `searchCache` map (line 18). -/
structure CacheEnt where
  data : List Place
  timestamp : ℤ
deriving DecidableEq, Repr

/-- The in-memory `searchCache : Map<string, {data, timestamp}>`. -/
def Cache := List (String × CacheEnt)

/-- `query.toLowerCase().trim()` — the cache key normalization (line 36). -/
def normalizeKey (query : String) : String :=
  jsTrim (jsToLower query)

/-- The cache read of `searchLocation` (lines 37–40): a value is returned iff an
entry exists and `now - timestamp < 300000` ms. -/
def cacheGetFresh (c : Cache) (key : String) (now : ℤ) : Option (List Place) :=
  match (List.find? (fun p => p.1 == key) c) with
  | some p => if now - p.2.timestamp < 300000 then some p.2.data else none
  | none => none

/-- `searchCache.set(key, entry)` (line 81): overwrite the key. -/
def cachePut (c : Cache) (key : String) (e : CacheEnt) : Cache :=
  (key, e) :: List.filter (fun p => !(p.1 == key)) c

/-- `searchCache.clear()` (line 355); the on-disk artifacts are outside this model. -/
def cacheClear (_c : Cache) : Cache := ([] : List (String × CacheEnt))

/-- Outcome of the single outbound geocoding attempt. `failure` collapses timeout,
transport error and malformed/non-array payload: in the source all three throw
inside the `try` (lines 42–83) and reach the `catch` (lines 84–87). -/
inductive ProviderOutcome where
  | failure : ProviderOutcome
  | success : List RawItem → ProviderOutcome
deriving DecidableEq, Repr

/-- The cache-miss path of `searchLocation` (lines 42–87): map the payload, rank,
truncate, strip, cache (success), or fall back to `getIndiaFallbackLocations` on the
original query without touching the cache (failure). -/
def missPath (c : Cache) (query : String) (o : ProviderOutcome) (now : ℤ) :
    List Place × Cache :=
  match o with
  | .failure => (getIndiaFallbackLocations query, c)
  | .success items =>
      let finalResults := rankResults (items.map mapItem)
      (finalResults, cachePut c (normalizeKey query) ⟨finalResults, now⟩)

/-- `searchLocation` (lines 34–88), as a function of the cache state, the provider
outcome and the current time; returns the result list and the new cache state.
The function is total: the public operation never raises. -/
def searchLocation (c : Cache) (query : String) (o : ProviderOutcome) (now : ℤ) :
    List Place × Cache :=
  match cacheGetFresh c (normalizeKey query) now with
  | some v => (v, c)
  | none => missPath c query o now

/-- Whether `searchLocation` reaches the outbound `fetch` (line 51): exactly when
the cache check (lines 37–40) does not return. The `offlineMode` configuration flag
is **not read anywhere** in this `MapApiManager`; the first parameter records the
flag's value and is ignored, as the source ignores it. -/
def searchAttemptsNetwork (offlineMode : Bool) (c : Cache) (query : String)
    (now : ℤ) : Bool :=
  let _ := offlineMode
  (cacheGetFresh c (normalizeKey query) now).isNone

/-! ## The older `MapApiManager` variant in `src/storage/database.ts` (lines 32–66) -/

/-- The result shape of the `database.ts` search paths (its mapped payload has only
`name`/`lat`/`lng`/`type`; its offline list also carries a description). -/
structure PlaceDB where
  name : String
  lat : ℚ
  lng : ℚ
  type : Option String := none
  description : Option String := none
deriving DecidableEq, Repr

/-- `getBangaloreLocations` (database.ts lines 80–132). -/
def bangaloreLocations : List PlaceDB :=
  [{ name := "Vidhana Soudha, Bangalore", lat := mkRat 129794 10000, lng := mkRat 775907 10000,
     type := some "landmark", description := some "Legislative building of Karnataka" },
   { name := "Cubbon Park, Bangalore", lat := mkRat 129764 10000, lng := mkRat 775927 10000,
     type := some "park", description := some "Large public park in Bangalore" },
   { name := "Lalbagh Botanical Garden, Bangalore", lat := mkRat 129507 10000, lng := mkRat 775848 10000,
     type := some "park", description := some "Famous botanical garden with glass house" },
   { name := "Bangalore Palace", lat := mkRat 129988 10000, lng := mkRat 775923 10000,
     type := some "landmark", description := some "Tudor-style palace inspired by Windsor Castle" },
   { name := "Commercial Street, Bangalore", lat := mkRat 129812 10000, lng := mkRat 776084 10000,
     type := some "shopping", description := some "Popular shopping destination" },
   { name := "MG Road, Bangalore", lat := mkRat 129716 10000, lng := mkRat 775946 10000,
     type := some "shopping", description := some "Main commercial street in Bangalore" },
   { name := "ISKCON Temple, Bangalore", lat := mkRat 130105 10000, lng := mkRat 775511 10000,
     type := some "temple", description := some "Hare Krishna temple" }]

/-- `searchOfflineLocations` (database.ts lines 60–66); the optional chaining
`description?.toLowerCase()` makes an absent description falsy. -/
def searchOfflineLocations (query : String) : List PlaceDB :=
  bangaloreLocations.filter fun location =>
    strIncludes (jsToLower location.name) (jsToLower query)
      || (match location.description with
          | some d => strIncludes (jsToLower d) (jsToLower query)
          | none => false)

/-- `searchLocation` of `database.ts` (lines 32–58): this variant **does** read the
`offlineMode` configuration flag and returns the offline list before any network
attempt when it is set; otherwise it attempts the provider and falls back on error.
(Its on-success disk write `cacheSearchResults` is outside this model.) -/
def searchLocationDB (offlineMode : Bool) (query : String) (o : ProviderOutcome) :
    List PlaceDB :=
  if offlineMode then
    searchOfflineLocations query
  else
    match o with
    | .failure => searchOfflineLocations query
    | .success items =>
        items.map fun item =>
          { name := item.display_name, lat := item.lat, lng := item.lon,
            type := item.type }

/-! ## Offline nearby places (part_000 lines 188–259) -/

/-- The `Math.random()` draws consumed by one loop iteration of
`generateIndiaSpecificPlaces`: latitude offset, longitude offset, rating, and the
two draws of `generateIndianAddress`. -/
structure RandDraw where
  offLat : ℚ
  offLng : ℚ
  rating : ℚ
  street : ℚ
  area : ℚ
deriving DecidableEq, Repr

/-- The street pool of `generateIndianAddress` (line 255). -/
def streetsList : List String :=
  ["MG Road", "Brigade Road", "Connaught Place", "Park Street",
   "Commercial Street", "Juhu Beach", "Marine Drive"]

/-- The area pool of `generateIndianAddress` (line 256). -/
def areasList : List String :=
  ["City Center", "Commercial Area", "Residential Area", "Market Area",
   "Suburban Area"]

/-- `generateIndianAddress` (lines 254–259), with the two `Math.random()` draws
passed in. -/
def generateIndianAddress (rs ra : ℚ) : String :=
  streetsList.getD (Int.toNat ⌊rs * 7⌋) "" ++ ", "
    ++ areasList.getD (Int.toNat ⌊ra * 5⌋) ""

/-- The numeric value of `parseFloat(x.toFixed(1))` for the nonnegative values the
source feeds it: round to one decimal, half up. -/
def toFixed1 (x : ℚ) : ℚ :=
  mkRat ⌊x * 10 + mkRat 1 2⌋ 10

/-- The `indiaPlaces` category table with its `|| default` (lines 189–231):
names list and descriptions list per category. -/
def indiaPlacesTable (category : String) : List String × List String :=
  if category == "restaurant" then
    (["Saravana Bhavan", "Bikanervala", "Haldiram's", "Local Dhaba",
      "Udipi Restaurant", "Paradise Biryani", "KFC", "McDonald's"],
     ["South Indian Restaurant", "North Indian Cuisine", "Sweet Shop & Restaurant",
      "Highway Dhaba", "Vegetarian Restaurant", "Hyderabadi Restaurant",
      "Fast Food Chain", "American Fast Food"])
  else if category == "hotel" then
    (["Taj Hotel", "ITC Grand", "The Leela", "Radisson Blu", "Novotel",
      "OYO Rooms", "FabHotel", "Treebo"],
     ["Luxury 5-Star Hotel", "Business Hotel", "Premium Hotel",
      "International Chain", "Modern Hotel", "Budget Hotel", "Value Hotel",
      "Economy Stay"])
  else if category == "attraction" then
    (["Historical Fort", "Ancient Temple", "City Palace", "Museum",
      "Botanical Garden", "Lake View", "Heritage Site", "Public Square"],
     ["Historical Monument", "Religious Site", "Royal Palace", "Cultural Museum",
      "Nature Park", "Scenic Spot", "UNESCO Heritage", "Public Gathering Place"])
  else if category == "shopping" then
    (["DLF Mall", "Phoenix Marketcity", "Forum Mall", "Local Bazaar",
      "Supermarket", "Brand Showroom", "Shopping Complex", "Department Store"],
     ["Premium Shopping Mall", "Large Retail Complex", "Modern Mall",
      "Traditional Market", "Grocery Store", "Brand Outlet", "Shopping Center",
      "Retail Store"])
  else if category == "hospital" then
    (["Apollo Hospital", "Fortis Hospital", "Max Healthcare", "AIIMS",
      "Government Hospital", "Private Clinic", "Medical Center", "Nursing Home"],
     ["Multi-specialty Hospital", "Super-specialty Hospital", "Healthcare Chain",
      "Government Hospital", "Public Hospital", "Private Clinic",
      "Medical Facility", "Healthcare Center"])
  else if category == "transport" then
    (["Metro Station", "Bus Stand", "Railway Station", "Auto Stand", "Taxi Stand",
      "Rickshaw Stand", "Parking Lot", "Transit Hub"],
     ["Metro Rail Station", "Bus Terminal", "Indian Railways Station",
      "Auto Rickshaw Stand", "Taxi Pickup", "Rickshaw Stop", "Vehicle Parking",
      "Transport Center"])
  else if category == "park" then
    (["City Park", "Children's Park", "Garden", "Public Ground",
      "Recreation Area", "Walking Track", "Playground", "Green Space"],
     ["Public Park", "Kids Play Area", "Botanical Garden", "Open Ground",
      "Sports Area", "Jogging Track", "Play Area", "Green Zone"])
  else if category == "temple" then
    (["Shiva Temple", "Hanuman Temple", "Krishna Temple", "Durga Temple",
      "Ganesh Temple", "Local Temple", "Ancient Temple", "ISKCON Temple"],
     ["Hindu Temple", "Religious Shrine", "Place of Worship", "Goddess Temple",
      "Elephant God Temple", "Community Temple", "Historical Temple",
      "Spiritual Center"])
  else if category == "market" then
    (["Local Market", "Vegetable Market", "Street Market", "Flea Market",
      "Wholesale Market", "Night Market", "Shopping Street", "Commercial Area"],
     ["Local Bazaar", "Fresh Produce Market", "Street Shopping", "Flea Market",
      "Wholesale Area", "Evening Market", "Shopping District", "Commercial Zone"])
  else
    (["Local Place"], ["Point of Interest"])

/-- `generateIndiaSpecificPlaces` (lines 188–252): eight places around the input
point, with the per-iteration random draws passed in as `draws`. -/
def generateIndiaSpecificPlaces (lat lng : ℚ) (category : String)
    (draws : ℕ → RandDraw) : List Place :=
  let placeData := indiaPlacesTable category
  (List.range 8).map fun i =>
    let d := draws i
    let offsetLat := (d.offLat - mkRat 1 2) * mkRat 1 100
    let offsetLng := (d.offLng - mkRat 1 2) * mkRat 1 100
    { name := placeData.1.getD (i % placeData.1.length) "",
      lat := lat + offsetLat,
      lng := lng + offsetLng,
      type := category,
      address := some (generateIndianAddress d.street d.area),
      rating := some (toFixed1 (d.rating * 2 + 3)),
      description := some (placeData.2.getD (i % placeData.2.length) ""),
      category := some category }

/-- `getNearbyPlaces` (lines 90–93): always delegates to the offline generator. -/
def getNearbyPlaces (lat lng : ℚ) (category : String) (draws : ℕ → RandDraw) :
    List Place :=
  generateIndiaSpecificPlaces lat lng category draws

/-! ## Directions (lines 95–120, 299–348) -/

/-- JS `Math.round`: round half toward positive infinity. -/
noncomputable def jsRound (x : ℝ) : ℤ := ⌊x + 1 / 2⌋

/-- `toRad` (lines 346–348). -/
noncomputable def toRad (degrees : ℚ) : ℝ := (degrees : ℝ) * (Real.pi / 180)

/-- JS `Math.atan2 y x` (signed-zero subtleties elided; the source only applies it
to the nonnegative square roots of the haversine terms). -/
noncomputable def jsAtan2 (y x : ℝ) : ℝ :=
  if 0 < x then Real.arctan (y / x)
  else if x < 0 then
    (if 0 ≤ y then Real.arctan (y / x) + Real.pi else Real.arctan (y / x) - Real.pi)
  else
    (if 0 < y then Real.pi / 2 else if y < 0 then -(Real.pi / 2) else 0)

/-- `calculateHaversineDistance` (lines 335–344): the haversine great-circle
distance with Earth radius `R = 6371` km. -/
noncomputable def calculateHaversineDistance (lat1 lon1 lat2 lon2 : ℚ) : ℝ :=
  let R : ℝ := 6371
  let dLat := toRad (lat2 - lat1)
  let dLon := toRad (lon2 - lon1)
  let a := Real.sin (dLat / 2) * Real.sin (dLat / 2)
    + Real.cos (toRad lat1) * Real.cos (toRad lat2)
      * Real.sin (dLon / 2) * Real.sin (dLon / 2)
  let c := 2 * jsAtan2 (Real.sqrt a) (Real.sqrt (1 - a))
  R * c

/-- The `speeds` object lookup of `calculateIndiaTravelTime` (lines 326–330);
`none` models the JS `undefined` (hence NaN arithmetic) for an unsupported mode. -/
def speedsLookup (mode : String) : Option ℚ :=
  if mode == "driving" then some 40
  else if mode == "walking" then some 4
  else if mode == "cycling" then some 12
  else none

/-- `calculateIndiaTravelTime` (lines 324–333): minutes, rounded JS-style;
`none` models the NaN produced for a mode outside the speeds table. -/
noncomputable def calculateIndiaTravelTime (distance : ℝ) (mode : String) :
    Option ℤ :=
  (speedsLookup mode).map fun s =>
    jsRound (distance / (s : ℝ) * 60 * (if mode == "driving" then 1.3 else 1))

/-- The result shape of `getDirections`/`calculateOfflineDirections`. The source
renders `distance` as `toFixed(1) + " km"` and `duration` as `... + " min"`; the
model keeps the numeric values (the duration the source computes uses the raw,
unrounded distance, as here). `duration = none` models the NaN of an unsupported
mode; `geometry` is the `(lng, lat)` coordinate list. -/
structure DirectionsResult where
  distance : ℝ
  duration : Option ℤ
  geometry : List (ℚ × ℚ)
  mode : String

/-- `calculateOfflineDirections` (lines 299–322), with the two midpoint jitter
draws passed in. -/
noncomputable def calculateOfflineDirections (slat slng elat elng : ℚ)
    (mode : String) (r1 r2 : ℚ) : DirectionsResult :=
  let distance := calculateHaversineDistance slat slng elat elng
  let duration := calculateIndiaTravelTime distance mode
  let midLat := (slat + elat) / 2 + (r1 - mkRat 1 2) * mkRat 1 100
  let midLng := (slng + elng) / 2 + (r2 - mkRat 1 2) * mkRat 1 100
  { distance := distance,
    duration := duration,
    geometry := [(slng, slat), (midLng, midLat), (elng, elat)],
    mode := mode }

/-- One route of the routing-provider payload. -/
structure RawRoute where
  distance : ℚ
  duration : ℚ
  geometry : List (ℚ × ℚ)
deriving DecidableEq, Repr

/-- Outcome of the single outbound routing attempt: `failure` collapses timeout,
transport error and JSON parse failure (all throw inside the `try`, lines 96–115,
and reach the `catch`, lines 116–119); `success routes` is a parsed payload, where
a payload without a `routes` array behaves as `success []` (both return `null`). -/
inductive RouteOutcome where
  | failure : RouteOutcome
  | success : List RawRoute → RouteOutcome

/-- `getDirections` (lines 95–120): `none` models the JS `null` returned when the
provider reports zero routes; a failed call returns the offline estimate. -/
noncomputable def getDirections (slat slng elat elng : ℚ) (mode : String)
    (o : RouteOutcome) (r1 r2 : ℚ) : Option DirectionsResult :=
  match o with
  | .failure => some (calculateOfflineDirections slat slng elat elng mode r1 r2)
  | .success routes =>
      match routes with
      | [] => none
      | rt :: _ =>
          some { distance := (rt.distance : ℝ) / 1000,
                 duration := some (jsRound ((rt.duration : ℝ) / 60)),
                 geometry := rt.geometry,
                 mode := mode }

/-- Modelled from the spec (§4.5): the mode speed table
`{driving: 40, walking: 4, cycling: 12}` km/h, as the spec words it, for comparison
with the source's `speeds` object. -/
def specSpeed (mode : String) : ℚ :=
  if mode == "driving" then 40 else if mode == "walking" then 4 else 12

/-- Modelled from the spec (§4.5): `trafficFactor` 1.3 for driving, 1.0 otherwise. -/
def specTraffic (mode : String) : ℚ :=
  if mode == "driving" then mkRat 13 10 else 1

/-- The concrete random draws of the C9 counterexample: every iteration draws 0.99
for the latitude offset (a value `Math.random()` can approach) and 0.5 elsewhere. -/
def counterexampleDraws : ℕ → RandDraw :=
  fun _ => { offLat := mkRat 99 100, offLng := mkRat 1 2, rating := mkRat 1 2, street := mkRat 1 2, area := mkRat 1 2 }

/-- Whether a place's latitude exceeds the 90° world bound. -/
def latAbove90 (p : Place) : Bool :=
  decide (90 < p.lat)

/-- The constant one-half draws used by the C9 witness. -/
def halfDraws : ℕ → RandDraw :=
  fun _ => { offLat := mkRat 1 2, offLng := mkRat 1 2, rating := mkRat 1 2, street := mkRat 1 2, area := mkRat 1 2 }

/-- The Delhi entry of the static fallback list, as returned first by
`getIndiaFallbackLocations ""`. -/
def delhiPlace : Place :=
  { name := "Delhi, India", lat := mkRat 286139 10000, lng := mkRat 772090 10000,
    type := "city", description := some "Capital of India" }

/-- A default `Place` for safe list indexing. -/
def emptyPlace : Place :=
  { name := "", lat := 0, lng := 0, type := "" }

/-! ## Lemmas about the ranking comparator -/

theorem sortRel_of_indian {a b : TaggedPlace} (ha : a.isIndian = true) :
    sortRel a b := by
  unfold sortRel searchComparator
  rw [ha]
  cases hb : b.isIndian <;> simp

theorem sortRel_of_nonindian {a b : TaggedPlace} (ha : a.isIndian = false)
    (hb : b.isIndian = false) : sortRel a b := by
  unfold sortRel searchComparator
  rw [ha, hb]
  simp

theorem not_sortRel_mixed {a b : TaggedPlace} (ha : a.isIndian = false)
    (hb : b.isIndian = true) : ¬ sortRel a b := by
  unfold sortRel searchComparator
  rw [ha, hb]
  simp

theorem orderedInsert_indian (x : TaggedPlace) (l : List TaggedPlace)
    (hx : x.isIndian = true) : List.orderedInsert sortRel x l = x :: l := by
  cases l with
  | nil => rfl
  | cons b t =>
      rw [List.orderedInsert, if_pos (sortRel_of_indian hx)]

theorem orderedInsert_nonindian (x : TaggedPlace) (L M : List TaggedPlace)
    (hx : x.isIndian = false) (hL : ∀ y ∈ L, y.isIndian = true)
    (hM : ∀ y ∈ M, y.isIndian = false) :
    List.orderedInsert sortRel x (L ++ M) = L ++ x :: M := by
  induction L with
  | nil =>
      cases M with
      | nil => rfl
      | cons m t =>
          rw [List.nil_append, List.orderedInsert,
            if_pos (sortRel_of_nonindian hx (hM m (List.mem_cons_self m t)))]
          rfl
  | cons a L ih =>
      rw [List.cons_append, List.orderedInsert,
        if_neg (not_sortRel_mixed hx (hL a (List.mem_cons_self a L))),
        ih (fun y hy => hL y (List.mem_cons_of_mem a hy))]
      rfl

/-- The stable sort by the search comparator is the stable partition: all
in-region-tagged candidates first, each group in input order. -/
theorem insertionSort_eq_filter (l : List TaggedPlace) :
    List.insertionSort sortRel l =
      l.filter (fun p => p.isIndian) ++ l.filter (fun p => !p.isIndian) := by
  induction l with
  | nil => rfl
  | cons x t ih =>
      rw [List.insertionSort, ih]
      cases hx : x.isIndian with
      | true =>
          rw [orderedInsert_indian x _ hx]
          simp [List.filter_cons, hx]
      | false =>
          rw [orderedInsert_nonindian x _ _ hx
            (fun y hy => by
              have := List.mem_filter.mp hy
              simpa using this.2)
            (fun y hy => by
              have := List.mem_filter.mp hy
              simpa using this.2)]
          simp [List.filter_cons, hx]

/-! ## Claim theorems -/

/-- C1: for every query, when the single provider attempt fails (timeout, transport
error, or malformed/non-array payload — all collapsed into `ProviderOutcome.failure`,
as all three throw into the same `catch`), `searchLocation` does not raise (it is a
total function), returns exactly the offline fallback search of the original,
unbiased query, and leaves the cache unchanged — no entry is created or
overwritten. -/
theorem search_failure_returns_fallback_cache_unchanged (c : Cache) (q : String)
    (now : ℤ) (hmiss : cacheGetFresh c (normalizeKey q) now = none) :
    searchLocation c q ProviderOutcome.failure now =
      (getIndiaFallbackLocations q, c) := by
  unfold searchLocation
  rw [hmiss]
  rfl

/-- Witness for C1 at a concrete input: an empty cache misses, and the failed search
returns the fallback list for `"Mumbai"` with the cache still empty. -/
theorem search_failure_returns_fallback_cache_unchanged_witness :
    searchLocation ([] : Cache) "Mumbai" ProviderOutcome.failure 0 =
      (getIndiaFallbackLocations "Mumbai", ([] : Cache)) :=
  search_failure_returns_fallback_cache_unchanged [] "Mumbai" 0 rfl

/-- C2: the ranking step of `searchLocation` (stable sort by the in-region
comparator, `slice(0, 8)`, tag stripping) maps a provider candidate sequence to: all
candidates whose coordinates satisfy the region-bounds test first, then all others,
each group in provider order (stable, no secondary key), truncated to at most 8, and
every returned value is an untagged `Place` (the image of `stripTag`, a type without
the transient `isIndian` field). -/
theorem ranking_stable_partition_truncate (items : List RawItem) :
    rankResults (items.map mapItem) =
      (((items.map mapItem).filter (fun t => isLocationInIndia t.lat t.lng)
        ++ (items.map mapItem).filter (fun t => !(isLocationInIndia t.lat t.lng))).take 8).map
        stripTag
    ∧ (rankResults (items.map mapItem)).length ≤ 8 := by
  constructor
  · unfold rankResults
    rw [insertionSort_eq_filter]
    have hcong : ∀ f : Bool → Bool,
        (items.map mapItem).filter (fun t => f t.isIndian) =
        (items.map mapItem).filter (fun t => f (isLocationInIndia t.lat t.lng)) := by
      intro f
      apply List.filter_congr
      intro t ht
      rcases List.mem_map.mp ht with ⟨i, _, rfl⟩
      rfl
    rw [hcong (fun b => b), hcong (fun b => !b)]
  · unfold rankResults
    rw [List.length_map]
    calc (List.take 8 (List.insertionSort sortRel (items.map mapItem))).length
        ≤ 8 := List.length_take_le 8 _

/-- C3: the cache entry written by a put is returned by any lookup strictly less
than 300000 ms (300 s) later — and `searchLocation` then answers from it, for every
provider outcome, leaving the state untouched (no network involvement); from 300000
ms on, the lookup misses even though the entry physically remains, and
`searchLocation` goes down the network path (`missPath`); after `clear()` the lookup
misses trivially. -/
theorem cache_ttl_roundtrip (c : Cache) (q : String) (v : List Place) (t0 t1 : ℤ)
    (o : ProviderOutcome) :
    (cacheGetFresh (cachePut c (normalizeKey q) ⟨v, t0⟩) (normalizeKey q) t1 =
      if t1 - t0 < 300000 then some v else none)
    ∧ (searchLocation (cachePut c (normalizeKey q) ⟨v, t0⟩) q o t1 =
      if t1 - t0 < 300000 then (v, cachePut c (normalizeKey q) ⟨v, t0⟩)
      else missPath (cachePut c (normalizeKey q) ⟨v, t0⟩) q o t1)
    ∧ cacheGetFresh (cacheClear (cachePut c (normalizeKey q) ⟨v, t0⟩))
        (normalizeKey q) t1 = none := by
  have hget : cacheGetFresh (cachePut c (normalizeKey q) ⟨v, t0⟩) (normalizeKey q) t1 =
      if t1 - t0 < 300000 then some v else none := by
    unfold cacheGetFresh cachePut
    rw [List.find?_cons_of_pos _ (by simp)]
  refine ⟨hget, ?_, rfl⟩
  unfold searchLocation
  rw [hget]
  by_cases h : t1 - t0 < 300000 <;> simp [h]

/-- C10: a cache hit during `searchLocation` is read-only — the returned state is
the input state, so no timestamp is refreshed, the provider outcome is irrelevant
(universally quantified), and an entry's 300 s lifetime keeps running from its last
write no matter how often it is read. -/
theorem cache_hit_readonly (c : Cache) (q : String) (o : ProviderOutcome)
    (now : ℤ) (v : List Place)
    (hhit : cacheGetFresh c (normalizeKey q) now = some v) :
    searchLocation c q o now = (v, c) := by
  unfold searchLocation
  rw [hhit]

/-- Witness for C10 at a concrete input: a cache holding `("x", ⟨[], 0⟩)` is hit at
time 1 and returned unchanged, independent of the provider outcome. -/
theorem cache_hit_readonly_witness :
    searchLocation [("x", CacheEnt.mk [] 0)] "x" ProviderOutcome.failure 1 =
      ([], [("x", CacheEnt.mk [] 0)]) :=
  cache_hit_readonly [("x", CacheEnt.mk [] 0)] "x" ProviderOutcome.failure 1 []
    (by decide)

/-- For an element of the underlying list, membership in a filtered sublist (as
computed by `List.contains`) is exactly the filter predicate's value. -/
theorem contains_filter_eq {α : Type} [DecidableEq α] (l : List α) (p : α → Bool)
    (x : α) (hx : x ∈ l) : (l.filter p).contains x = p x := by
  cases h : p x
  · rw [Bool.eq_false_iff]
    intro hc
    have hmem := List.elem_iff.mp hc
    rw [List.mem_filter, h] at hmem
    exact Bool.false_ne_true hmem.2
  · exact List.elem_iff.mpr (List.mem_filter.mpr ⟨hx, h⟩)

/-- C4: `addIndiaBias` computes exactly the spec's `buildBiasedQuery` — the query is
returned unchanged iff its lower-casing contains a known city name, or contains
"india", or has length ≤ 2, and otherwise gets `", India"` appended; it is a pure
(deterministic, effect-free) function of the query. -/
theorem addIndiaBias_eq_buildBiasedQuerySpec (q : String) :
    addIndiaBias q = buildBiasedQuerySpec q := by
  simp only [addIndiaBias, buildBiasedQuerySpec]
  by_cases h3 : 2 < q.length
  · have h3' : ¬ q.length ≤ 2 := by omega
    cases h1 : indianCities.any (fun city => strIncludes (jsToLower q) city) <;>
      cases h2 : strIncludes (jsToLower q) "india" <;>
        simp [h1, h2, h3, h3']
  · have h3' : q.length ≤ 2 := by omega
    cases h1 : indianCities.any (fun city => strIncludes (jsToLower q) city) <;>
      cases h2 : strIncludes (jsToLower q) "india" <;>
        simp [h1, h2, h3, h3']

/-- C5: `getIndiaFallbackLocations` computes exactly the spec's `fallbackSearch`
over the static city list (empty trimmed query: first 8 in declared order;
otherwise name-substring matches in list order followed by the remaining
description matches, truncated to 8, with the first 4 cities as the non-empty
last resort), and its result is never empty. -/
theorem fallbackSearch_eq_spec (q : String) :
    getIndiaFallbackLocations q = fallbackSearchSpec q
    ∧ getIndiaFallbackLocations q ≠ [] := by
  have hfilter :
      majorIndianCities.filter (fun location =>
        strIncludes (jsToLower (location.description.getD "")) (jsTrim (jsToLower q))
          && !((majorIndianCities.filter (fun location =>
                strIncludes (jsToLower location.name) (jsTrim (jsToLower q)))).contains
              location)) =
      majorIndianCities.filter (fun location =>
        strIncludes (jsToLower (location.description.getD "")) (jsTrim (jsToLower q))
          && !(strIncludes (jsToLower location.name) (jsTrim (jsToLower q)))) := by
    apply List.filter_congr
    intro x hx
    rw [contains_filter_eq _ _ _ hx]
  have h12 : majorIndianCities.length = 12 := rfl
  have h8 : majorIndianCities.take 8 ≠ [] := by
    apply List.ne_nil_of_length_pos
    rw [List.length_take, h12]
    norm_num
  have h4 : majorIndianCities.take 4 ≠ [] := by
    apply List.ne_nil_of_length_pos
    rw [List.length_take, h12]
    norm_num
  simp only [getIndiaFallbackLocations, fallbackSearchSpec, hfilter]
  by_cases hs : (jsTrim (jsToLower q) == "") = true
  · rw [if_pos hs, if_pos hs]
    exact ⟨rfl, h8⟩
  · rw [if_neg hs, if_neg hs]
    by_cases hnil :
        ((majorIndianCities.filter fun location =>
            strIncludes (jsToLower location.name) (jsTrim (jsToLower q)))
          ++ majorIndianCities.filter fun location =>
            strIncludes (jsToLower (location.description.getD ""))
                (jsTrim (jsToLower q))
              && !(strIncludes (jsToLower location.name) (jsTrim (jsToLower q)))) = []
    · rw [if_pos hnil, if_neg (by rw [hnil]; norm_num)]
      exact ⟨rfl, h4⟩
    · have hpos := List.length_pos.mpr hnil
      rw [if_neg hnil, if_pos hpos]
      refine ⟨rfl, ?_⟩
      apply List.ne_nil_of_length_pos
      rw [List.length_take]
      omega

/-- C6 (code bug): evaluated at the failing input — offline mode on, empty cache,
query `"taj mahal"`, time 0 — the active `MapApiManager.searchLocation` of
`mapApiManager.ts` still reaches the outbound network attempt (it never reads the
`offlineMode` configuration), while the sibling `searchLocation` in `database.ts`
honors the flag: with `offlineMode = true` it returns the offline list for every
provider outcome, before any network attempt. -/
theorem offlineMode_ignored_by_mapApiManager :
    searchAttemptsNetwork true ([] : Cache) "taj mahal" 0 = true
    ∧ ∀ (q : String) (o : ProviderOutcome),
        searchLocationDB true q o = searchOfflineLocations q :=
  ⟨rfl, fun _ _ => rfl⟩

/-- C7: for every start/end/mode, a successful provider response with zero routes
makes `getDirections` return `none` (the JS `null`), passed to the caller as-is —
not replaced by the fallback; a failed provider call (timeout, transport, parse
failure) makes it return exactly the offline geometric estimate, and the function
is total (never raises); a response with at least one route never yields `null`. -/
theorem route_zero_routes_null_failure_fallback (slat slng elat elng : ℚ)
    (mode : String) (r1 r2 : ℚ) :
    getDirections slat slng elat elng mode (RouteOutcome.success []) r1 r2 = none
    ∧ getDirections slat slng elat elng mode RouteOutcome.failure r1 r2 =
        some (calculateOfflineDirections slat slng elat elng mode r1 r2)
    ∧ ∀ (rt : RawRoute) (rest : List RawRoute),
        (getDirections slat slng elat elng mode (RouteOutcome.success (rt :: rest))
          r1 r2).isSome = true :=
  ⟨rfl, rfl, fun _ _ => rfl⟩

/-- A `(Math.random() - 0.5) * 0.01` jitter is at most 0.005 in absolute value. -/
theorem jitter_bound (r : ℚ) (h0 : 0 ≤ r) (h1 : r < 1) :
    |(r - mkRat 1 2) * mkRat 1 100| ≤ 1 / 200 := by
  simp only [Rat.mkRat_eq_div]
  rw [abs_le]
  constructor <;> nlinarith

/-- C8: the offline route estimate's distance is the haversine great-circle
distance (`calculateHaversineDistance`, Earth radius 6371 km), its duration is
`distance / speed(mode) * 60 * trafficFactor` rounded JS-style to the nearest
minute with the spec's speeds (driving 40, walking 4, cycling 12 km/h) and traffic
factor (1.3 driving, 1.0 otherwise), and its geometry is exactly the 3 points
start, midpoint-of-endpoints jittered by at most ±0.005° per axis, end (as
`(lng, lat)` pairs). -/
theorem fallbackRoute_haversine_duration_geometry (slat slng elat elng : ℚ)
    (mode : String) (r1 r2 : ℚ)
    (hmode : mode = "driving" ∨ mode = "walking" ∨ mode = "cycling")
    (hr1 : 0 ≤ r1) (hr1' : r1 < 1) (hr2 : 0 ≤ r2) (hr2' : r2 < 1) :
    ∃ jLat jLng : ℚ, |jLat| ≤ 1 / 200 ∧ |jLng| ≤ 1 / 200 ∧
      calculateOfflineDirections slat slng elat elng mode r1 r2 =
        { distance := calculateHaversineDistance slat slng elat elng,
          duration := some (jsRound (calculateHaversineDistance slat slng elat elng
            / ((specSpeed mode : ℚ) : ℝ) * 60 * ((specTraffic mode : ℚ) : ℝ))),
          geometry := [(slng, slat),
            ((slng + elng) / 2 + jLng, (slat + elat) / 2 + jLat), (elng, elat)],
          mode := mode }
      ∧ (calculateOfflineDirections slat slng elat elng mode r1 r2).geometry.length
          = 3 := by
  refine ⟨(r1 - mkRat 1 2) * mkRat 1 100, (r2 - mkRat 1 2) * mkRat 1 100, jitter_bound r1 hr1 hr1',
    jitter_bound r2 hr2 hr2', ?_, rfl⟩
  have hdur : ∀ d : ℝ, calculateIndiaTravelTime d mode =
      some (jsRound (d / ((specSpeed mode : ℚ) : ℝ) * 60
        * ((specTraffic mode : ℚ) : ℝ))) := by
    intro d
    rcases hmode with h | h | h <;> subst h
    · have hs : speedsLookup "driving" = some 40 := rfl
      simp only [calculateIndiaTravelTime, hs, Option.map_some']
      norm_num [specSpeed, specTraffic]
    · have hs : speedsLookup "walking" = some 4 := rfl
      have hne : ("walking" : String) ≠ "driving" := by decide
      simp only [calculateIndiaTravelTime, hs, Option.map_some']
      norm_num [specSpeed, specTraffic, if_neg hne]
    · have hs : speedsLookup "cycling" = some 12 := rfl
      have hne : ("cycling" : String) ≠ "driving" := by decide
      have hne2 : ("cycling" : String) ≠ "walking" := by decide
      simp only [calculateIndiaTravelTime, hs, Option.map_some']
      norm_num [specSpeed, specTraffic, if_neg hne, if_neg hne2]
  simp only [calculateOfflineDirections, hdur]

/-- Witness for C8 at a concrete input: start `(0,0)`, end `(0,1)`, driving, both
jitter draws 0.5. -/
theorem fallbackRoute_haversine_duration_geometry_witness :
    ∃ jLat jLng : ℚ, |jLat| ≤ 1 / 200 ∧ |jLng| ≤ 1 / 200 ∧
      calculateOfflineDirections 0 0 0 1 "driving" (mkRat 1 2) (mkRat 1 2) =
        { distance := calculateHaversineDistance 0 0 0 1,
          duration := some (jsRound (calculateHaversineDistance 0 0 0 1
            / ((specSpeed "driving" : ℚ) : ℝ) * 60 * ((specTraffic "driving" : ℚ) : ℝ))),
          geometry := [((0 : ℚ), (0 : ℚ)),
            ((0 + 1) / 2 + jLng, (0 + 0) / 2 + jLat), (1, 0)],
          mode := "driving" }
      ∧ (calculateOfflineDirections 0 0 0 1 "driving" (mkRat 1 2) (mkRat 1 2)).geometry.length = 3 :=
  fallbackRoute_haversine_duration_geometry 0 0 0 1 "driving" (mkRat 1 2) (mkRat 1 2) (Or.inl rfl)
    (by decide) (by decide) (by decide) (by decide)

/-- C9 counterexample: the public `getNearbyPlaces` operation, called at the legal
input latitude 90 with an admissible random draw (0.99), returns a `Place` whose
latitude is 90.0049 > 90 — the coordinate-bounds invariant claimed for every
returned `Place` fails (the generator jitters the unclamped input point). -/
theorem place_bounds_counterexample :
    (getNearbyPlaces 90 0 "park" counterexampleDraws).any latAbove90 = true := by
  apply List.any_eq_true.mpr
  refine ⟨_, List.mem_map.mpr ⟨0, List.mem_range.mpr (by decide), rfl⟩, ?_⟩
  simp only [latAbove90, counterexampleDraws, decide_eq_true_eq]
  norm_num [Rat.mkRat_eq_div]

/-- C9 amended: every `Place` produced by the offline fallback search has
coordinates inside the world bounds (−90 ≤ lat ≤ 90, −180 ≤ lng ≤ 180); a `Place`
returned by `getNearbyPlaces` only lies within 0.005° per axis of the *input*
point (so the bounds invariant holds only when the input point is at least 0.005°
inside the world bounds — and the provider search path passes provider coordinates
through unvalidated). -/
theorem place_bounds_amended :
    (∀ (q : String), ∀ p ∈ getIndiaFallbackLocations q,
        -90 ≤ p.lat ∧ p.lat ≤ 90 ∧ -180 ≤ p.lng ∧ p.lng ≤ 180)
    ∧ (∀ (lat lng : ℚ) (category : String) (draws : ℕ → RandDraw),
        (∀ i, 0 ≤ (draws i).offLat ∧ (draws i).offLat < 1
          ∧ 0 ≤ (draws i).offLng ∧ (draws i).offLng < 1) →
        ∀ p ∈ getNearbyPlaces lat lng category draws,
          |p.lat - lat| ≤ 1 / 200 ∧ |p.lng - lng| ≤ 1 / 200) := by
  constructor
  · intro q p hp
    have hsub : p ∈ majorIndianCities := by
      simp only [getIndiaFallbackLocations] at hp
      split at hp
      · exact List.take_subset 8 _ hp
      · split at hp
        · rcases List.mem_append.mp (List.take_subset 8 _ hp) with h | h
          · exact List.mem_of_mem_filter h
          · exact List.mem_of_mem_filter h
        · exact List.take_subset 4 _ hp
    have hb : ∀ x ∈ majorIndianCities,
        -90 ≤ x.lat ∧ x.lat ≤ 90 ∧ -180 ≤ x.lng ∧ x.lng ≤ 180 := by decide
    exact hb p hsub
  · intro lat lng category draws hdraws p hp
    unfold getNearbyPlaces generateIndiaSpecificPlaces at hp
    rcases List.mem_map.mp hp with ⟨i, _, rfl⟩
    constructor
    · have h1 : lat + ((draws i).offLat - mkRat 1 2) * mkRat 1 100 - lat
          = ((draws i).offLat - mkRat 1 2) * mkRat 1 100 := by ring
      show |lat + ((draws i).offLat - mkRat 1 2) * mkRat 1 100 - lat| ≤ 1 / 200
      rw [h1]
      exact jitter_bound _ (hdraws i).1 (hdraws i).2.1
    · have h2 : lng + ((draws i).offLng - mkRat 1 2) * mkRat 1 100 - lng
          = ((draws i).offLng - mkRat 1 2) * mkRat 1 100 := by ring
      show |lng + ((draws i).offLng - mkRat 1 2) * mkRat 1 100 - lng| ≤ 1 / 200
      rw [h2]
      exact jitter_bound _ (hdraws i).2.2.1 (hdraws i).2.2.2

/-- An in-range `List.getD` is a member of the list. -/
theorem getD_mem_of_lt {α : Type} (l : List α) (n : ℕ) (d : α) (h : n < l.length) :
    l.getD n d ∈ l := by
  rw [List.getD_eq_getElem?_getD, List.getElem?_eq_getElem h]
  exact List.getElem_mem h

/-- Witness for C9 (amended) at concrete inputs: the Delhi entry returned by the
empty-query fallback (its head) is inside the world bounds, and the first nearby
place generated around `(20, 77)` with draws 0.5 is within 0.005° of the input
point. -/
theorem place_bounds_amended_witness :
    ((-90 : ℚ) ≤ delhiPlace.lat ∧ delhiPlace.lat ≤ 90
      ∧ (-180 : ℚ) ≤ delhiPlace.lng ∧ delhiPlace.lng ≤ 180)
    ∧ (|((getNearbyPlaces 20 77 "park" halfDraws).getD 0 emptyPlace).lat - 20|
          ≤ 1 / 200
       ∧ |((getNearbyPlaces 20 77 "park" halfDraws).getD 0 emptyPlace).lng - 77|
          ≤ 1 / 200) :=
  ⟨place_bounds_amended.1 "" delhiPlace (List.mem_cons_self _ _),
   place_bounds_amended.2 20 77 "park" halfDraws
     (fun _ => by
       show 0 ≤ mkRat 1 2 ∧ mkRat 1 2 < 1 ∧ 0 ≤ mkRat 1 2 ∧ mkRat 1 2 < 1
       decide)
     _ (getD_mem_of_lt _ 0 _
        (by simp [getNearbyPlaces, generateIndiaSpecificPlaces]))⟩

end IntelliTravel
